import Mathlib

/-!
Verification development for the gopilot-orchestrator gateway
(`orchestrator/main.py`).  The Python handlers are shallowly embedded:
JSON/Python values become the inductive `JVal`, environment variables an
explicit `Env` record, and each handler a pure function from the request
data and the (abstract) upstream response to the produced gateway result.
-/

/-- Parsed JSON / Python value as produced by `json.loads` / `request.json()`:
`None`, `bool`, `int`, `str`, `list`, `dict` (insertion-ordered field list). -/
inductive JVal where
  | null
  | bool (b : Bool)
  | num (n : Int)
  | str (s : String)
  | arr (xs : List JVal)
  | obj (fs : List (String × JVal))
deriving Repr

/-- Python truthiness (`bool(x)`) on parsed JSON values. -/
def truthy : JVal → Bool
  | .null => false
  | .bool b => b
  | .num n => n != 0
  | .str s => s != ""
  | .arr xs => !xs.isEmpty
  | .obj fs => !fs.isEmpty

/-- Python `x or y` on parsed JSON values: `y` when `x` is falsy, else `x`. -/
def pyOr (a b : JVal) : JVal := if truthy a then a else b

/-- Lookup of a key in an insertion-ordered dict, `d.get(k)` without default. -/
def jget (fs : List (String × JVal)) (k : String) : Option JVal :=
  (fs.find? (fun p => p.1 == k)).map Prod.snd

/-- `d.get(k)` on a dict: `None` when the key is absent. -/
def jgetD (fs : List (String × JVal)) (k : String) : JVal :=
  (jget fs k).getD .null

/-- Python dict assignment `d[k] = v`: an existing key keeps its position,
a new key is appended (insertion order). -/
def jset (fs : List (String × JVal)) (k : String) (v : JVal) : List (String × JVal) :=
  if (fs.find? (fun p => p.1 == k)).isSome then
    fs.map (fun p => if p.1 == k then (p.1, v) else p)
  else
    fs ++ [(k, v)]

/-- `v.get(k)` where `v` may not be a dict: `AttributeError` on non-dicts. -/
def jvGet : JVal → String → Except String JVal
  | .obj fs, k => .ok (jgetD fs k)
  | _, _ => .error "AttributeError"

/-- `v.get(k, default)` where `v` may not be a dict. -/
def jvGetD : JVal → String → JVal → Except String JVal
  | .obj fs, k, d => .ok ((jget fs k).getD d)
  | _, _, _ => .error "AttributeError"

/-- Python `v[0]` on a parsed JSON value: first list element, one-character
string of a string, `IndexError` when empty, `TypeError` otherwise. -/
def jvIndex0 : JVal → Except String JVal
  | .arr (x :: _) => .ok x
  | .arr [] => .error "IndexError"
  | .str s =>
    match s.toList with
    | c :: _ => .ok (.str (String.mk [c]))
    | [] => .error "IndexError"
  | _ => .error "TypeError"

/-- Char-list substring search: `needle` occurs contiguously in the haystack. -/
def listContains (needle : List Char) : List Char → Bool
  | [] => needle.isPrefixOf []
  | c :: cs => needle.isPrefixOf (c :: cs) || listContains needle cs

/-- Python `needle in s` substring test on strings. -/
def containsSub (needle s : String) : Bool :=
  listContains needle.data s.data

/-- Python `s.rstrip("/")`: drop every trailing `'/'`. -/
def rstripSlash (s : String) : String :=
  String.mk ((s.data.reverse.dropWhile (fun c => c == '/')).reverse)

/-- Python `s.lower()` (ASCII case folding, which is all the code relies on). -/
def lowerStr (s : String) : String :=
  String.mk (s.data.map Char.toLower)

/-- The environment variables read by `orchestrator/main.py`.  URL and
credential variables are read with default `""`, so `""` doubles as
"unset"; `UPSTREAM_AUTH` and `UPSTREAM_DEFAULT_MODEL` have non-empty
defaults, so unset is kept distinct via `Option`. -/
structure Env where
  predictUrl : String
  completionsUrl : String
  baseUrl : String
  auth : Option String
  apiKey : String
  gcloudToken : String
  defaultModel : Option String
deriving DecidableEq, Repr

/-- `os.getenv("UPSTREAM_AUTH", d).lower()` for endpoint-specific default `d`. -/
def authModeOf (e : Env) (d : String) : String :=
  lowerStr (e.auth.getD d)

/-- `os.getenv("UPSTREAM_DEFAULT_MODEL", "openai/gpt-oss-120b-maas")`. -/
def defaultModelOf (e : Env) : String :=
  e.defaultModel.getD "openai/gpt-oss-120b-maas"

/-- Upstream URL selection, `_get_upstream_config` lines 14-25: prefer the
prediction URL, then the chat-completions URL, then the base URL joined with
`/v1/chat/completions`; error when none is set. -/
def selectUpstreamUrl (e : Env) : Except String String :=
  let predict_url := rstripSlash e.predictUrl
  let completions_url := rstripSlash e.completionsUrl
  let base_url := rstripSlash e.baseUrl
  if predict_url != "" then .ok predict_url
  else if completions_url != "" then .ok completions_url
  else if base_url != "" then .ok (base_url ++ "/v1/chat/completions")
  else .error "Configure UPSTREAM_PREDICT_URL ou UPSTREAM_CHAT_COMPLETIONS_URL"

/-- Outbound headers, `_get_upstream_config` lines 30-48: always
`Content-Type: application/json`; `bearer`/`gcloud` add an `Authorization`
header from their (required, non-empty) credential; `none` adds nothing;
any other mode name is an error. -/
def authHeaders (e : Env) : Except String (List (String × String)) :=
  let auth_mode := authModeOf e "bearer"
  let base := [("Content-Type", "application/json")]
  if auth_mode == "bearer" then
    if e.apiKey == "" then
      .error "UPSTREAM_API_KEY é obrigatório para UPSTREAM_AUTH=bearer"
    else .ok (base ++ [("Authorization", "Bearer " ++ e.apiKey)])
  else if auth_mode == "gcloud" then
    if e.gcloudToken == "" then
      .error "GOOGLE_ACCESS_TOKEN é obrigatório para UPSTREAM_AUTH=gcloud"
    else .ok (base ++ [("Authorization", "Bearer " ++ e.gcloudToken)])
  else if auth_mode == "none" then .ok base
  else .error ("UPSTREAM_AUTH inválido: " ++ auth_mode)

/-- `_get_upstream_config` (`main.py` lines 12-50): select the upstream URL,
reject loopback hosts, then resolve the auth headers.  `RuntimeError`
messages are carried as the `Except` error. -/
def _get_upstream_config (e : Env) : Except String (String × List (String × String)) := do
  let upstream_url ← selectUpstreamUrl e
  if containsSub "localhost" upstream_url || containsSub "127.0.0.1" upstream_url then
    .error "PROIBIDO LOCALHOST em upstream"
  else do
    let headers ← authHeaders e
    .ok (upstream_url, headers)

example : selectUpstreamUrl ⟨"https://p.example/pred/", "https://c.example", "", some "none", "", "", none⟩ = .ok "https://p.example/pred" := rfl

example : _get_upstream_config ⟨"", "", "https://b.example", some "none", "", "", none⟩ = .ok ("https://b.example/v1/chat/completions", [("Content-Type", "application/json")]) := rfl

example : _get_upstream_config ⟨"http://localhost:8080/x", "", "", some "none", "", "", none⟩ = .error "PROIBIDO LOCALHOST em upstream" := rfl

example : _get_upstream_config ⟨"http://LOCALHOST:8080/x", "", "", some "none", "", "", none⟩ = .ok ("http://LOCALHOST:8080/x", [("Content-Type", "application/json")]) := rfl

/-! ### Streaming emulator (`sse_iter`, `main.py` lines 112-152) -/

/-- Slice size `max(20, len(content) // 20 or 1)` (`main.py` line 128). -/
def chunk_size (L : Nat) : Nat :=
  max 20 (let q := L / 20; if q == 0 then 1 else q)

/-- The loop `for i in range(0, len(s), k): s[i : i + k]` (`main.py`
lines 129-130), with an explicit iteration bound: for `k ≥ 1` the loop runs
at most `len(s)` times, so fuel `len(s)` is exact.  (`k = 0` would raise
`ValueError` in Python and never occurs: `chunk_size` is at least 20.) -/
def chunksOfFuel (k : Nat) : Nat → List Char → List (List Char)
  | _, [] => []
  | 0, _ :: _ => []
  | fuel + 1, c :: cs => ((c :: cs).take k) :: chunksOfFuel k fuel ((c :: cs).drop k)

/-- The content slices of one emulated stream. -/
def chunksOf (k : Nat) (s : List Char) : List (List Char) :=
  chunksOfFuel k s.length s

/-- First yielded event: `delta = role assistant`, null finish_reason
(`main.py` lines 118-125). -/
def roleEvent (idv model : JVal) : JVal :=
  .obj [("id", idv), ("object", .str "chat.completion.chunk"), ("model", model),
        ("choices", .arr [.obj [("index", .num 0),
                                ("delta", .obj [("role", .str "assistant")]),
                                ("finish_reason", .null)]])]

/-- One content-delta event per slice (`main.py` lines 131-138). -/
def contentEvent (idv model : JVal) (piece : String) : JVal :=
  .obj [("id", idv), ("object", .str "chat.completion.chunk"), ("model", model),
        ("choices", .arr [.obj [("index", .num 0),
                                ("delta", .obj [("content", .str piece)]),
                                ("finish_reason", .null)]])]

/-- Terminal event with empty delta and the resolved finish_reason
(`main.py` lines 141-148). -/
def doneEvent (idv model fr : JVal) : JVal :=
  .obj [("id", idv), ("object", .str "chat.completion.chunk"), ("model", model),
        ("choices", .arr [.obj [("index", .num 0),
                                ("delta", .obj []),
                                ("finish_reason", fr)]])]

/-- The ordered event dicts yielded by `sse_iter` before SSE framing: role
chunk, one content chunk per slice, then the terminal chunk whose
finish_reason is `choices[0].get("finish_reason") or "stop"`.  `finish0` is
the `finish_reason` value of the source choice (`None` when absent). -/
def sseChunkEvents (oid model : JVal) (content : String) (finish0 : JVal) : List JVal :=
  let idv := pyOr oid (.str "chatcmpl")
  roleEvent idv model
    :: (chunksOf (chunk_size content.length) content.data).map
         (fun p => contentEvent idv model (String.mk p))
    ++ [doneEvent idv model (pyOr finish0 (.str "stop"))]

/-- Python `repr` of a string, as used by `str(dict)` for keys and string
values: single quotes, unless the string contains a single quote and no
double quote; backslash, the quote character, newline, carriage return and
tab are escaped.  (CPython additionally hex-escapes other non-printable
characters; no string in this development contains any.) -/
def pyReprStr (s : String) : String :=
  let q : Char := if s.data.contains '\'' && !(s.data.contains '"') then '"' else '\''
  let esc : Char → String := fun c =>
    if c == '\\' then "\\\\"
    else if c == q then String.mk ['\\', q]
    else if c == '\n' then "\\n"
    else if c == '\r' then "\\r"
    else if c == '\t' then "\\t"
    else String.mk [c]
  String.mk [q] ++ String.join (s.data.map esc) ++ String.mk [q]

mutual

/-- Python `str`/`repr` of a parsed JSON value.  This is what the f-string
interpolation in `sse_iter` applies to each event dict
(`main.py` lines 126, 139, 149): `None`/`True`/`False`, decimal integers,
quoted strings, and bracketed comma-separated sequences and dicts. -/
def pyRepr : JVal → String
  | .null => "None"
  | .bool b => if b then "True" else "False"
  | .num n => toString n
  | .str s => pyReprStr s
  | .arr xs => "[" ++ pyReprSeq xs ++ "]"
  | .obj fs => "\x7b" ++ pyReprFields fs ++ "\x7d"

/-- Comma-separated reprs of the elements of a Python list. -/
def pyReprSeq : List JVal → String
  | [] => ""
  | [x] => pyRepr x
  | x :: y :: xs => pyRepr x ++ ", " ++ pyReprSeq (y :: xs)

/-- Comma-separated `key: value` reprs of the items of a Python dict. -/
def pyReprFields : List (String × JVal) → String
  | [] => ""
  | [(k, v)] => pyReprStr k ++ ": " ++ pyRepr v
  | (k, v) :: f :: fs => pyReprStr k ++ ": " ++ pyRepr v ++ ", " ++ pyReprFields (f :: fs)

end

/-- The full SSE body `sse_iter` yields (`main.py` lines 116-150): each event
dict rendered by f-string interpolation (Python `str`, i.e. `pyRepr`) inside
a `data: ...` frame, then the trailing literal `data: [DONE]` frame. -/
def sse_iter (oid model : JVal) (content : String) (finish0 : JVal) : List String :=
  (sseChunkEvents oid model content finish0).map
      (fun ev => "data: " ++ pyRepr ev ++ "\n\n")
    ++ ["data: [DONE]\n\n"]

/-! Extractors used to state claims about emitted chunks. -/

/-- The fields of the single choice object of a chunk event, when present. -/
def firstChoiceFields (ev : JVal) : Option (List (String × JVal)) :=
  match ev with
  | .obj fs =>
    match jget fs "choices" with
    | some (.arr ((.obj c) :: _)) => some c
    | _ => none
  | _ => none

/-- The fields of the `delta` object of a chunk event, when present. -/
def deltaFields (ev : JVal) : Option (List (String × JVal)) :=
  match firstChoiceFields ev with
  | some c =>
    match jget c "delta" with
    | some (.obj d) => some d
    | _ => none
  | none => none

/-- The content payload of a content-delta chunk; `none` for the role-only
and terminal chunks. -/
def deltaContentOf (ev : JVal) : Option String :=
  match deltaFields ev with
  | some d =>
    match jget d "content" with
    | some (.str s) => some s
    | _ => none
  | none => none

/-- The `finish_reason` of a chunk event's choice, when present. -/
def finishReasonOf (ev : JVal) : Option JVal :=
  match firstChoiceFields ev with
  | some c => jget c "finish_reason"
  | none => none

example : chunksOf 20 "hello world".data = ["hello world".data] := rfl

example : chunk_size 0 = 20 := rfl

example : chunk_size 1000 = 50 := rfl

example : deltaContentOf (contentEvent .null .null "abc") = some "abc" := rfl

example : deltaContentOf (roleEvent .null .null) = none := rfl

example : deltaContentOf (doneEvent .null .null (.str "stop")) = none := rfl

example : finishReasonOf (doneEvent .null .null (.str "stop")) = some (.str "stop") := rfl

example :
    pyRepr (roleEvent (.str "chatcmpl") (.str "m"))
      = "\x7b'id': 'chatcmpl', 'object': 'chat.completion.chunk', 'model': 'm', 'choices': [\x7b'index': 0, 'delta': \x7b'role': 'assistant'\x7d, 'finish_reason': None\x7d]\x7d" := by
  simp [pyRepr, pyReprSeq, pyReprFields, pyReprStr, roleEvent, String.join]
  rfl

/-! ### Request mutation and translation (`main.py` lines 76-93) -/

/-- Lines 77-78: `if not body.get("model"): body["model"] = default` —
the default model is written whenever the `model` entry is absent or falsy. -/
def injectModel (body : List (String × JVal)) (defaultModel : String) : List (String × JVal) :=
  if truthy (jgetD body "model") then body else jset body "model" (.str defaultModel)

/-- Lines 85-92: the single Prediction-API instance — the format marker, the
request's messages (default empty list), and `max_tokens` / `temperature`
included exactly when those keys are present in the request body. -/
def mkPredictInstance (body : List (String × JVal)) : List (String × JVal) :=
  let inst := [("@requestFormat", JVal.str "chatCompletions"),
               ("messages", (jget body "messages").getD (.arr []))]
  let inst := match jget body "max_tokens" with
    | some v => inst ++ [("max_tokens", v)]
    | none => inst
  match jget body "temperature" with
  | some v => inst ++ [("temperature", v)]
  | none => inst

/-- Line 93: `payload = dict of instances = [instance]`. -/
def mkPredictPayload (body : List (String × JVal)) : JVal :=
  .obj [("instances", .arr [.obj (mkPredictInstance body)])]

/-- The outbound request body `chat_completions` posts upstream: the
prediction payload for a prediction-style target (line 96), the
model-injected request body itself for a chat-completions-style target
(lines 167 and 180). -/
def outboundBody (e : Env) (reqBody : List (String × JVal)) : JVal :=
  let body := injectModel reqBody (defaultModelOf e)
  if rstripSlash e.predictUrl != "" then mkPredictPayload body else .obj body

/-! ### Response translation (`main.py` lines 100-110, 155-162) -/

/-- The five values lines 106-110 extract from the prediction response. -/
structure PredFields where
  choices : JVal
  created : JVal
  oid : JVal
  model : JVal
  usage : JVal

/-- Lines 102-110: `pred = vertex.get("predictions") or` empty dict,
normalized to its first element when it is a non-empty list; then
`choices`/`created`/`id`/`model`/`usage` are read off `pred` with the
code's Python-`or` defaults.  `.get` on a non-dict raises `AttributeError`. -/
def extractPredFields (vertex : JVal) (bodyModel : JVal) : Except String PredFields := do
  let predictions ← jvGet vertex "predictions"
  let pred0 := pyOr predictions (.obj [])
  let pred := match pred0 with
    | .arr (x :: _) => x
    | v => v
  let choicesRaw ← jvGet pred "choices"
  let created ← jvGet pred "created"
  let oid ← jvGet pred "id"
  let modelRaw ← jvGet pred "model"
  let usageRaw ← jvGet pred "usage"
  pure ⟨pyOr choicesRaw (.arr []), created, oid, pyOr modelRaw bodyModel, pyOr usageRaw (.obj [])⟩

/-- Lines 155-162: the non-streaming OpenAI-format response body.  Note the
absent upstream `id` is replaced by the literal `"chatcmpl"`. -/
def mkOpenAICompletion (f : PredFields) : JVal :=
  .obj [("id", pyOr f.oid (.str "chatcmpl")), ("object", .str "chat.completion"),
        ("created", f.created), ("model", f.model),
        ("choices", f.choices), ("usage", f.usage)]

/-- Lines 114 and 146: `choices[0].get("message", ...).get("content", "")`
and `choices[0].get("finish_reason")`.  The content must be a string: `len`
and slicing on any other parsed-JSON value raise `TypeError` in `sse_iter`. -/
def sseContentAndFinish (choices : JVal) : Except String (String × JVal) := do
  let c ← jvIndex0 choices
  let msg ← jvGetD c "message" (.obj [])
  let content ← jvGetD msg "content" (.str "")
  let finish0 ← jvGet c "finish_reason"
  match content with
  | .str s => pure (s, finish0)
  | _ => .error "TypeError"

/-! ### The `/v1/chat/completions` handler (`main.py` lines 69-185) -/

/-- Upstream HTTP response as the handler observes it: status code, body
text, the parsed JSON body (`none` when the body is not JSON, where
`resp.json()` would raise), and the `content-type` header when present. -/
structure UpResp where
  status : Nat
  text : String
  jsonBody : Option JVal
  contentType : Option String

/-- What a handler invocation produces: a JSON response, an emulated SSE
stream, a streamed byte passthrough (upstream status and media type
preserved), a raised `HTTPException` (status, detail), or an uncaught
Python exception. -/
inductive GatewayResult where
  | jsonRes (status : Nat) (body : JVal)
  | sseRes (frames : List String)
  | passthrough (status : Nat) (mediaType : String)
  | httpError (status : Nat) (detail : String)
  | crash (msg : String)

/-- The `/v1/chat/completions` handler, given the environment, the parsed
request body and the upstream's response to the outbound call.  Mirrors
`main.py` lines 69-185: configuration errors become 503; for a
prediction-style target an upstream status ≥ 400 is re-raised with the
upstream text (line 98), the response is translated (lines 100-110), and
streaming is emulated only when `stream` is truthy and `choices` is
non-empty (line 113); for a chat-completions-style target the body is
relayed (streamed: lines 165-177, buffered: lines 178-183) with ≥ 400
statuses re-raised likewise. -/
def chat_completions (e : Env) (reqBody : List (String × JVal)) (up : UpResp) : GatewayResult :=
  match _get_upstream_config e with
  | .error msg => .httpError 503 msg
  | .ok _cfg =>
    let body := injectModel reqBody (defaultModelOf e)
    let predict_url := rstripSlash e.predictUrl
    if predict_url != "" then
      if up.status ≥ 400 then .httpError up.status up.text
      else
        match up.jsonBody with
        | none => .crash "JSONDecodeError"
        | some vertex =>
          match extractPredFields vertex (jgetD body "model") with
          | .error m => .crash m
          | .ok f =>
            if truthy (jgetD body "stream") && truthy f.choices then
              match sseContentAndFinish f.choices with
              | .error m => .crash m
              | .ok (content, finish0) => .sseRes (sse_iter f.oid f.model content finish0)
            else .jsonRes 200 (mkOpenAICompletion f)
    else
      if truthy (jgetD body "stream") then
        if up.status ≥ 400 then .httpError up.status up.text
        else .passthrough up.status (up.contentType.getD "application/json")
      else
        if up.status ≥ 400 then .httpError up.status up.text
        else
          match up.jsonBody with
          | none => .crash "JSONDecodeError"
          | some j => .jsonRes up.status j

/-! ### The `/vertex/predict` endpoint's own resolution (`main.py` lines 188-207) -/

/-- Configuration validation of `/vertex/predict`: 503 when the predict URL
is unset, 400 (not 503) for a loopback URL, auth mode defaulting to
`gcloud`; only the `gcloud` and `bearer` modes are checked — any other mode
name silently proceeds with no `Authorization` header. -/
def vertexPredictResolve (e : Env) : Except (Nat × String) (String × List (String × String)) :=
  let predict_url := rstripSlash e.predictUrl
  if predict_url == "" then .error (503, "Defina UPSTREAM_PREDICT_URL")
  else if containsSub "localhost" predict_url || containsSub "127.0.0.1" predict_url then
    .error (400, "PROIBIDO LOCALHOST em UPSTREAM_PREDICT_URL")
  else
    let auth_mode := authModeOf e "gcloud"
    let base := [("Content-Type", "application/json")]
    if auth_mode == "gcloud" then
      if e.gcloudToken == "" then
        .error (503, "GOOGLE_ACCESS_TOKEN é obrigatório para UPSTREAM_AUTH=gcloud")
      else .ok (predict_url, base ++ [("Authorization", "Bearer " ++ e.gcloudToken)])
    else if auth_mode == "bearer" then
      if e.apiKey == "" then
        .error (503, "UPSTREAM_API_KEY é obrigatório para UPSTREAM_AUTH=bearer")
      else .ok (predict_url, base ++ [("Authorization", "Bearer " ++ e.apiKey)])
    else .ok (predict_url, base)

/-! ### Spec-side renderings -/

/-- JSON rendering of a string (standard escaping of backslash, quote and
the control characters that occur in this development). -/
def jsonStr (s : String) : String :=
  let esc : Char → String := fun c =>
    if c == '\\' then "\\\\"
    else if c == '"' then "\\\""
    else if c == '\n' then "\\n"
    else if c == '\r' then "\\r"
    else if c == '\t' then "\\t"
    else String.mk [c]
  "\"" ++ String.join (s.data.map esc) ++ "\""

mutual

/-- Modelled from the spec: the JSON serialization of a chunk that §4.5 says
each SSE frame carries (`data: <json>`), with `json.dumps` default
separators.  This is the spec-side definition, to be compared with the
code-side `pyRepr` used by `sse_iter`. -/
def specJsonRender : JVal → String
  | .null => "null"
  | .bool b => if b then "true" else "false"
  | .num n => toString n
  | .str s => jsonStr s
  | .arr xs => "[" ++ specJsonSeq xs ++ "]"
  | .obj fs => "\x7b" ++ specJsonFields fs ++ "\x7d"

/-- Comma-separated JSON renderings of array elements. -/
def specJsonSeq : List JVal → String
  | [] => ""
  | [x] => specJsonRender x
  | x :: y :: xs => specJsonRender x ++ ", " ++ specJsonSeq (y :: xs)

/-- Comma-separated JSON renderings of object members. -/
def specJsonFields : List (String × JVal) → String
  | [] => ""
  | [(k, v)] => jsonStr k ++ ": " ++ specJsonRender v
  | (k, v) :: f :: fs => jsonStr k ++ ": " ++ specJsonRender v ++ ", " ++ specJsonFields (f :: fs)

end

/-- Modelled framework behavior (FastAPI's default `HTTPException` handler,
which is library code, not part of `src/`): a raised `HTTPException` is
rendered as a JSON object with the single field `detail` holding the
exception's detail string, under the exception's status code. -/
def renderHTTPException (status : Nat) (detail : String) : Nat × String :=
  (status, "\x7b\"detail\":" ++ jsonStr detail ++ "\x7d")

/-! ### Lemmas about the slicing loop -/

theorem chunk_size_pos (L : Nat) : 0 < chunk_size L :=
  Nat.lt_of_lt_of_le (by norm_num) (Nat.le_max_left 20 _)

theorem chunksOfFuel_join (k : Nat) (hk : 0 < k) :
    ∀ (fuel : Nat) (s : List Char), s.length ≤ fuel →
      (chunksOfFuel k fuel s).flatten = s := by
  intro fuel
  induction fuel with
  | zero =>
    intro s hs
    have hnil : s = [] := List.eq_nil_of_length_eq_zero (Nat.le_zero.mp hs)
    subst hnil
    rfl
  | succ n ih =>
    intro s hs
    cases s with
    | nil => rfl
    | cons c cs =>
      have hdrop : ((c :: cs).drop k).length ≤ n := by
        simp only [List.length_drop, List.length_cons] at *
        omega
      calc (chunksOfFuel k (n + 1) (c :: cs)).flatten
          = (c :: cs).take k ++ (chunksOfFuel k n ((c :: cs).drop k)).flatten := by
            simp [chunksOfFuel]
        _ = (c :: cs).take k ++ (c :: cs).drop k := by rw [ih _ hdrop]
        _ = c :: cs := List.take_append_drop k (c :: cs)

theorem chunksOfFuel_length (k : Nat) (hk : 0 < k) :
    ∀ (fuel : Nat) (s : List Char), s.length ≤ fuel →
      (chunksOfFuel k fuel s).length = (s.length + k - 1) / k := by
  intro fuel
  induction fuel with
  | zero =>
    intro s hs
    have hnil : s = [] := List.eq_nil_of_length_eq_zero (Nat.le_zero.mp hs)
    subst hnil
    simp [chunksOfFuel, Nat.div_eq_of_lt (show k - 1 < k by omega)]
  | succ n ih =>
    intro s hs
    cases s with
    | nil => simp [chunksOfFuel, Nat.div_eq_of_lt (show k - 1 < k by omega)]
    | cons c cs =>
      have hdrop : ((c :: cs).drop k).length ≤ n := by
        simp only [List.length_drop, List.length_cons] at *
        omega
      have hrec := ih _ hdrop
      have hstep : (chunksOfFuel k (n + 1) (c :: cs)).length
          = (chunksOfFuel k n ((c :: cs).drop k)).length + 1 := by
        simp [chunksOfFuel]
      rw [hstep, hrec]
      simp only [List.length_drop, List.length_cons]
      have hconc : cs.length + 1 + k - 1 = cs.length + k := by omega
      rw [hconc, Nat.add_div_right _ hk]
      rcases le_or_lt k (cs.length + 1) with h | h
      · have h1 : cs.length + 1 - k + k - 1 = cs.length := by omega
        rw [h1]
      · have h1 : cs.length + 1 - k = 0 := by omega
        have h2 : cs.length / k = 0 := Nat.div_eq_of_lt (by omega)
        have h3 : (k - 1) / k = 0 := Nat.div_eq_of_lt (by omega)
        rw [h1]
        simp [h2, h3]

theorem chunksOf_join (k : Nat) (hk : 0 < k) (s : List Char) :
    (chunksOf k s).flatten = s :=
  chunksOfFuel_join k hk s.length s (Nat.le_refl _)

theorem chunksOf_length (k : Nat) (hk : 0 < k) (s : List Char) :
    (chunksOf k s).length = (s.length + k - 1) / k :=
  chunksOfFuel_length k hk s.length s (Nat.le_refl _)

/-! ### Chunk-shape lemmas -/

theorem deltaContentOf_roleEvent (idv model : JVal) :
    deltaContentOf (roleEvent idv model) = none := rfl

theorem deltaContentOf_contentEvent (idv model : JVal) (p : String) :
    deltaContentOf (contentEvent idv model p) = some p := rfl

theorem deltaContentOf_doneEvent (idv model fr : JVal) :
    deltaContentOf (doneEvent idv model fr) = none := rfl

theorem finishReasonOf_roleEvent (idv model : JVal) :
    finishReasonOf (roleEvent idv model) = some .null := rfl

theorem finishReasonOf_doneEvent (idv model fr : JVal) :
    finishReasonOf (doneEvent idv model fr) = some fr := rfl

theorem filterMap_contentEvents (idv model : JVal) (l : List (List Char)) :
    (l.map (fun p => contentEvent idv model (String.mk p))).filterMap deltaContentOf
      = l.map (fun p => String.mk p) := by
  induction l with
  | nil => rfl
  | cons a as ih => simp [List.filterMap_cons, ih, deltaContentOf_contentEvent]

theorem sseChunkEvents_filterMap (oid model finish0 : JVal) (content : String) :
    (sseChunkEvents oid model content finish0).filterMap deltaContentOf
      = (chunksOf (chunk_size content.length) content.data).map (fun p => String.mk p) := by
  simp only [sseChunkEvents, List.filterMap_cons, List.filterMap_append,
    deltaContentOf_roleEvent, deltaContentOf_doneEvent, List.filterMap_nil]
  simpa using filterMap_contentEvents (pyOr oid (.str "chatcmpl")) model
    (chunksOf (chunk_size content.length) content.data)

/-- C1: streaming-emulation determinism.  With `L` the content length and
`S = max(20, L // 20 or 1)` the derived slice size, the emulator yields
exactly `⌈L/S⌉` content-delta chunks whose payloads concatenate (in emission
order) to the content; they are preceded by one role-only chunk with null
finish_reason and followed by one terminal chunk whose finish_reason is the
source choice's when present (and a real reason) and `"stop"` when absent,
and the rendered SSE sequence ends with the literal `[DONE]` frame. -/
theorem streaming_emulation_deterministic (oid model finish0 : JVal) (content : String) :
    ((sseChunkEvents oid model content finish0).filterMap deltaContentOf).length
        = (content.length + chunk_size content.length - 1) / chunk_size content.length
    ∧ (((sseChunkEvents oid model content finish0).filterMap deltaContentOf).map
          String.data).flatten = content.data
    ∧ (sseChunkEvents oid model content finish0).head?
        = some (roleEvent (pyOr oid (.str "chatcmpl")) model)
    ∧ deltaContentOf (roleEvent (pyOr oid (.str "chatcmpl")) model) = none
    ∧ finishReasonOf (roleEvent (pyOr oid (.str "chatcmpl")) model) = some .null
    ∧ (sseChunkEvents oid model content finish0).getLast?
        = some (doneEvent (pyOr oid (.str "chatcmpl")) model (pyOr finish0 (.str "stop")))
    ∧ (finish0 = .null → pyOr finish0 (.str "stop") = .str "stop")
    ∧ (∀ s, finish0 = .str s → s ≠ "" → pyOr finish0 (.str "stop") = .str s)
    ∧ (sse_iter oid model content finish0).getLast? = some "data: [DONE]\n\n" := by
  have hS : 0 < chunk_size content.length := chunk_size_pos _
  have hfm := sseChunkEvents_filterMap oid model finish0 content
  refine ⟨?_, ?_, ?_, rfl, rfl, ?_, ?_, ?_, ?_⟩
  · rw [hfm, List.length_map, chunksOf_length _ hS]
    rfl
  · rw [hfm, List.map_map]
    have hcomp : (String.data ∘ fun p : List Char => String.mk p) = id := by
      funext p; rfl
    rw [hcomp, List.map_id, chunksOf_join _ hS]
  · simp [sseChunkEvents]
  · have hsplit : sseChunkEvents oid model content finish0
        = (roleEvent (pyOr oid (.str "chatcmpl")) model
            :: (chunksOf (chunk_size content.length) content.data).map
                 (fun p => contentEvent (pyOr oid (.str "chatcmpl")) model (String.mk p)))
          ++ [doneEvent (pyOr oid (.str "chatcmpl")) model (pyOr finish0 (.str "stop"))] := by
      simp [sseChunkEvents]
    rw [hsplit, List.getLast?_concat]
  · intro h; subst h; rfl
  · intro s h hs; subst h
    simp [pyOr, truthy, hs]
  · rw [sse_iter, List.getLast?_concat]

/-- Scenario check for C1 (spec §8): 11-character content with slice size 20
yields exactly one content chunk, and the stream ends with the `[DONE]`
frame. -/
theorem streaming_emulation_deterministic_witness :
    ((sseChunkEvents (.str "cid") (.str "m") "hello world" (.str "stop")).filterMap
        deltaContentOf).length = 1
    ∧ (sse_iter (.str "cid") (.str "m") "hello world" (.str "stop")).getLast?
        = some "data: [DONE]\n\n" := by
  have h := streaming_emulation_deterministic (.str "cid") (.str "m") (.str "stop") "hello world"
  refine ⟨?_, h.2.2.2.2.2.2.2.2⟩
  exact h.1.trans (by rfl)

/-- C2: what the code actually emits at a concrete streamed response — each
frame is `data: ` followed by the PYTHON dict repr of the chunk (single
quotes, `None`), not the JSON serialization the spec prescribes; the first
frame differs from the JSON rendering of the same chunk.  Empty content
still yields the role chunk, the terminal chunk and the final `[DONE]`
frame, as the spec states. -/
theorem sse_frames_python_repr_not_json :
    (sse_iter .null (.str "m") "hi" (.str "stop")).head?
      = some "data: \x7b'id': 'chatcmpl', 'object': 'chat.completion.chunk', 'model': 'm', 'choices': [\x7b'index': 0, 'delta': \x7b'role': 'assistant'\x7d, 'finish_reason': None\x7d]\x7d\n\n"
    ∧ "data: \x7b'id': 'chatcmpl', 'object': 'chat.completion.chunk', 'model': 'm', 'choices': [\x7b'index': 0, 'delta': \x7b'role': 'assistant'\x7d, 'finish_reason': None\x7d]\x7d\n\n"
      ≠ "data: " ++ specJsonRender (roleEvent (.str "chatcmpl") (.str "m")) ++ "\n\n"
    ∧ sse_iter .null (.str "m") "" (.str "stop")
      = ["data: \x7b'id': 'chatcmpl', 'object': 'chat.completion.chunk', 'model': 'm', 'choices': [\x7b'index': 0, 'delta': \x7b'role': 'assistant'\x7d, 'finish_reason': None\x7d]\x7d\n\n",
         "data: \x7b'id': 'chatcmpl', 'object': 'chat.completion.chunk', 'model': 'm', 'choices': [\x7b'index': 0, 'delta': \x7b\x7d, 'finish_reason': 'stop'\x7d]\x7d\n\n",
         "data: [DONE]\n\n"] := by
  refine ⟨rfl, ?_, rfl⟩
  decide

/-- C3: upstream resolution precedence — the prediction URL wins, then the
chat-completions URL, then the base URL joined with the fixed
chat-completions path; with none set, resolution fails with the
configuration error; and any successful full resolution uses exactly the
selected URL. -/
theorem upstream_resolution_precedence (e : Env) :
    (rstripSlash e.predictUrl ≠ "" →
      selectUpstreamUrl e = .ok (rstripSlash e.predictUrl))
    ∧ (rstripSlash e.predictUrl = "" → rstripSlash e.completionsUrl ≠ "" →
      selectUpstreamUrl e = .ok (rstripSlash e.completionsUrl))
    ∧ (rstripSlash e.predictUrl = "" → rstripSlash e.completionsUrl = "" →
        rstripSlash e.baseUrl ≠ "" →
      selectUpstreamUrl e = .ok (rstripSlash e.baseUrl ++ "/v1/chat/completions"))
    ∧ (rstripSlash e.predictUrl = "" → rstripSlash e.completionsUrl = "" →
        rstripSlash e.baseUrl = "" →
      _get_upstream_config e
        = .error "Configure UPSTREAM_PREDICT_URL ou UPSTREAM_CHAT_COMPLETIONS_URL")
    ∧ (∀ url h, _get_upstream_config e = .ok (url, h) → selectUpstreamUrl e = .ok url) := by
  refine ⟨?_, ?_, ?_, ?_, ?_⟩
  · intro hp
    simp [selectUpstreamUrl, hp]
  · intro hp hc
    simp [selectUpstreamUrl, hp, hc]
  · intro hp hc hb
    simp [selectUpstreamUrl, hp, hc, hb]
  · intro hp hc hb
    simp [_get_upstream_config, selectUpstreamUrl, hp, hc, hb, Bind.bind, Except.bind]
  · intro url h hok
    cases hsel : selectUpstreamUrl e with
    | error m => simp [_get_upstream_config, hsel, Bind.bind, Except.bind] at hok
    | ok u =>
      simp only [_get_upstream_config, hsel, Bind.bind, Except.bind] at hok
      split at hok
      · exact absurd hok (by simp)
      · cases hauth : authHeaders e with
        | error m => simp [hauth, Bind.bind, Except.bind] at hok
        | ok hs =>
          simp [hauth, Bind.bind, Except.bind] at hok
          rw [hok.1]

/-- Concrete instances of C3: with all three URLs set the prediction URL is
selected; with none set, resolution fails with the configuration error. -/
theorem upstream_resolution_precedence_witness :
    selectUpstreamUrl ⟨"https://p.example", "https://c.example", "https://b.example",
        some "none", "", "", none⟩ = .ok "https://p.example"
    ∧ _get_upstream_config ⟨"", "", "", some "none", "", "", none⟩
        = .error "Configure UPSTREAM_PREDICT_URL ou UPSTREAM_CHAT_COMPLETIONS_URL" :=
  ⟨(upstream_resolution_precedence ⟨"https://p.example", "https://c.example",
      "https://b.example", some "none", "", "", none⟩).1 (by decide),
   (upstream_resolution_precedence ⟨"", "", "", some "none", "", "", none⟩).2.2.2.1
      rfl rfl rfl⟩

/-- C4 (counterexample): the loopback check is case-sensitive — an upstream
URL containing uppercase `LOCALHOST` resolves successfully, so "in any
letter case" fails — and `/vertex/predict` rejects a loopback prediction URL
with HTTP 400, not 503. -/
theorem localhost_policy_counterexample :
    _get_upstream_config ⟨"http://LOCALHOST:8080/x", "", "", some "none", "", "", none⟩
      = .ok ("http://LOCALHOST:8080/x", [("Content-Type", "application/json")])
    ∧ vertexPredictResolve ⟨"http://localhost:8080/x", "", "", some "none", "", "", none⟩
      = .error (400, "PROIBIDO LOCALHOST em UPSTREAM_PREDICT_URL")
    ∧ (400 : Nat) ≠ 503 :=
  ⟨rfl, rfl, by decide⟩

/-- C4 (amended): for every configured upstream URL containing the lowercase
literal `localhost` or `127.0.0.1` as a substring, resolution fails;
`/v1/chat/completions` surfaces the failure as HTTP 503, while
`/vertex/predict` rejects a loopback prediction URL with HTTP 400. -/
theorem localhost_policy_amended (e : Env) (url : String)
    (hsel : selectUpstreamUrl e = .ok url)
    (hloc : containsSub "localhost" url = true ∨ containsSub "127.0.0.1" url = true) :
    _get_upstream_config e = .error "PROIBIDO LOCALHOST em upstream"
    ∧ (∀ reqBody up, chat_completions e reqBody up
        = .httpError 503 "PROIBIDO LOCALHOST em upstream")
    ∧ (∀ e' : Env, rstripSlash e'.predictUrl ≠ "" →
        (containsSub "localhost" (rstripSlash e'.predictUrl) = true
          ∨ containsSub "127.0.0.1" (rstripSlash e'.predictUrl) = true) →
        vertexPredictResolve e'
          = .error (400, "PROIBIDO LOCALHOST em UPSTREAM_PREDICT_URL")) := by
  have hcfg : _get_upstream_config e = .error "PROIBIDO LOCALHOST em upstream" := by
    simp only [_get_upstream_config, hsel, Bind.bind, Except.bind]
    rcases hloc with h | h <;> simp [h]
  refine ⟨hcfg, ?_, ?_⟩
  · intro reqBody up
    simp [chat_completions, hcfg]
  · intro e' hp hloc'
    rcases hloc' with h | h <;> simp [vertexPredictResolve, hp, h]

/-- Concrete instance of C4 (amended): a lowercase-localhost upstream fails
resolution on the chat endpoint and is rejected with 400 on
`/vertex/predict`. -/
theorem localhost_policy_amended_witness :
    _get_upstream_config ⟨"http://localhost:9/x", "", "", some "none", "", "", none⟩
      = .error "PROIBIDO LOCALHOST em upstream"
    ∧ vertexPredictResolve ⟨"http://localhost:9/x", "", "", some "none", "", "", none⟩
      = .error (400, "PROIBIDO LOCALHOST em UPSTREAM_PREDICT_URL") := by
  have h := localhost_policy_amended ⟨"http://localhost:9/x", "", "", some "none", "", "", none⟩
      "http://localhost:9/x" rfl (Or.inl (by decide))
  exact ⟨h.1, h.2.2 ⟨"http://localhost:9/x", "", "", some "none", "", "", none⟩
      (by decide) (Or.inl (by decide))⟩

/-! ### Response-translation claims -/

/-- The field `k` of a JSON object value, `none` when absent or not an
object. -/
def jvField (v : JVal) (k : String) : Option JVal :=
  match v with
  | .obj fs => jget fs k
  | _ => none

/-- A concrete single-choice `choices` value as in spec §8. -/
def predChoicesEx : JVal :=
  .arr [.obj [("message", .obj [("role", .str "assistant"), ("content", .str "hello world")]),
              ("finish_reason", .str "stop")]]

/-- A concrete prediction object with choices but no id/created/model/usage. -/
def predEx : List (String × JVal) := [("choices", predChoicesEx)]

/-- C5 (counterexample): translating a prediction response whose `id` is
absent yields a ChatCompletion whose `id` is the fabricated literal
`"chatcmpl"` — neither absent nor empty — contradicting "absent id ...
passed through as empty/absent rather than fabricated". -/
theorem prediction_translation_counterexample :
    jget predEx "id" = none
    ∧ extractPredFields (.obj [("predictions", .obj predEx)]) (.str "rm")
        = .ok ⟨predChoicesEx, .null, .null, .str "rm", .obj []⟩
    ∧ jvField (mkOpenAICompletion ⟨predChoicesEx, .null, .null, .str "rm", .obj []⟩) "id"
        = some (.str "chatcmpl")
    ∧ some (JVal.str "chatcmpl") ≠ some JVal.null
    ∧ JVal.str "chatcmpl" ≠ .str "" := by
  refine ⟨rfl, rfl, rfl, by simp, by simp⟩

/-- C5 (amended): from a prediction-style body (single-object `predictions`,
or a non-empty sequence normalized to its first element), `choices` is
passed through unchanged, an absent `model` falls back to the request's
model, absent `created`/`usage` are passed through as null/empty, but an
absent `id` is replaced by the placeholder `"chatcmpl"` rather than being
left empty. -/
theorem prediction_translation_amended (vfs pred : List (String × JVal)) (rest : List JVal)
    (reqModel : JVal) (f : PredFields)
    (hpred : (jget vfs "predictions" = some (.obj pred) ∧ pred ≠ [])
             ∨ jget vfs "predictions" = some (.arr (.obj pred :: rest)))
    (hf : extractPredFields (.obj vfs) reqModel = .ok f) :
    (∀ ch, jget pred "choices" = some ch → truthy ch = true →
      f.choices = ch ∧ jvField (mkOpenAICompletion f) "choices" = some ch)
    ∧ (jget pred "model" = none → f.model = reqModel)
    ∧ (jget pred "created" = none → f.created = .null
        ∧ jvField (mkOpenAICompletion f) "created" = some .null)
    ∧ (jget pred "usage" = none → f.usage = .obj []
        ∧ jvField (mkOpenAICompletion f) "usage" = some (.obj []))
    ∧ (jget pred "id" = none →
        jvField (mkOpenAICompletion f) "id" = some (.str "chatcmpl")) := by
  have hex : extractPredFields (.obj vfs) reqModel = .ok
      ⟨pyOr (jgetD pred "choices") (.arr []), jgetD pred "created", jgetD pred "id",
       pyOr (jgetD pred "model") reqModel, pyOr (jgetD pred "usage") (.obj [])⟩ := by
    rcases hpred with ⟨hp, hne⟩ | hp
    · cases pred with
      | nil => exact absurd rfl hne
      | cons q qs =>
        simp only [extractPredFields, jvGet, jgetD, hp, pyOr, truthy, Bind.bind, Except.bind,
          Option.getD]
        rfl
    · simp only [extractPredFields, jvGet, jgetD, hp, pyOr, truthy, Bind.bind, Except.bind,
        Option.getD]
      rfl
  rw [hf] at hex
  have hfe : f = ⟨pyOr (jgetD pred "choices") (.arr []), jgetD pred "created", jgetD pred "id",
       pyOr (jgetD pred "model") reqModel, pyOr (jgetD pred "usage") (.obj [])⟩ := by
    cases hex
    rfl
  subst hfe
  refine ⟨?_, ?_, ?_, ?_, ?_⟩
  · intro ch hch hcht
    have h1 : jgetD pred "choices" = ch := by simp [jgetD, hch]
    constructor
    · simp [h1, pyOr, hcht]
    · show some (pyOr (jgetD pred "choices") (.arr [])) = some ch
      simp [h1, pyOr, hcht]
  · intro hm
    have h1 : jgetD pred "model" = .null := by simp [jgetD, hm]
    simp [h1, pyOr, truthy]
  · intro hc
    have h1 : jgetD pred "created" = .null := by simp [jgetD, hc]
    exact ⟨h1, by simp [jvField, mkOpenAICompletion, jget, h1]⟩
  · intro hu
    have h1 : jgetD pred "usage" = .null := by simp [jgetD, hu]
    constructor
    · simp [h1, pyOr, truthy]
    · show some (pyOr (jgetD pred "usage") (.obj [])) = some (.obj [])
      simp [h1, pyOr, truthy]
  · intro hid
    have h1 : jgetD pred "id" = .null := by simp [jgetD, hid]
    show some (pyOr (jgetD pred "id") (.str "chatcmpl")) = some (.str "chatcmpl")
    simp [h1, pyOr, truthy]

/-- Concrete instance of C5 (amended): choices pass through unchanged and
the absent id becomes `"chatcmpl"`. -/
theorem prediction_translation_amended_witness :
    (⟨predChoicesEx, .null, .null, .str "rm", .obj []⟩ : PredFields).choices = predChoicesEx
    ∧ jvField (mkOpenAICompletion ⟨predChoicesEx, .null, .null, .str "rm", .obj []⟩) "id"
        = some (.str "chatcmpl") := by
  have h := prediction_translation_amended [("predictions", .obj predEx)] predEx [] (.str "rm")
      ⟨predChoicesEx, .null, .null, .str "rm", .obj []⟩ (Or.inl ⟨rfl, by simp [predEx]⟩) rfl
  exact ⟨(h.1 predChoicesEx rfl rfl).1, h.2.2.2.2 rfl⟩

/-! ### Error-surfacing claims -/

/-- A prediction-style environment with no auth requirement, used for
concrete handler evaluations. -/
def envChatEx : Env := ⟨"https://p.example/pred", "", "", some "none", "", "", none⟩

/-- C6 (counterexample): the upstream 404 status is mirrored, but the
response body the framework renders for the raised `HTTPException` is the
JSON wrapper around the upstream text, not the upstream body verbatim. -/
theorem upstream_error_counterexample :
    chat_completions envChatEx [] ⟨404, "not found", none, none⟩
      = .httpError 404 "not found"
    ∧ renderHTTPException 404 "not found" = (404, "\x7b\"detail\":\"not found\"\x7d")
    ∧ "\x7b\"detail\":\"not found\"\x7d" ≠ "not found" := by
  refine ⟨rfl, rfl, by decide⟩

/-- C6 (amended): whenever configuration resolves and the upstream answers
with status ≥ 400, `/v1/chat/completions` raises an `HTTPException` carrying
the mirrored upstream status and the upstream body text as its detail; the
framework then renders the detail inside a JSON object with the single
field `detail`, not as the verbatim body. -/
theorem upstream_error_mirrored (e : Env) (reqBody : List (String × JVal)) (up : UpResp)
    (cfg : String × List (String × String))
    (hcfg : _get_upstream_config e = .ok cfg) (hst : 400 ≤ up.status) :
    chat_completions e reqBody up = .httpError up.status up.text
    ∧ renderHTTPException up.status up.text
        = (up.status, "\x7b\"detail\":" ++ jsonStr up.text ++ "\x7d") := by
  constructor
  · unfold chat_completions
    rw [hcfg]
    by_cases hp : (rstripSlash e.predictUrl != "") = true
    · simp [hp, hst]
    · simp [hp, hst]
  · rfl

/-- Concrete instance of C6 (amended): an upstream 503 with body "oops" is
mirrored as status 503 with detail "oops". -/
theorem upstream_error_mirrored_witness :
    chat_completions envChatEx [] ⟨503, "oops", none, none⟩ = .httpError 503 "oops" :=
  (upstream_error_mirrored envChatEx [] ⟨503, "oops", none, none⟩
      ("https://p.example/pred", [("Content-Type", "application/json")])
      rfl (by decide)).1

/-- A streaming chat request body. -/
def reqStreamEx : List (String × JVal) :=
  [("messages", .arr []), ("stream", .bool true)]

/-- C7 (counterexample): a prediction response with an empty `predictions`
field is not surfaced as 502 — the handler returns a 200 ChatCompletion
with empty choices (and the fabricated `chatcmpl` id). -/
theorem empty_predictions_counterexample :
    chat_completions envChatEx reqStreamEx ⟨200, "", some (.obj [("predictions", .arr [])]), none⟩
      = .jsonRes 200 (.obj [("id", .str "chatcmpl"), ("object", .str "chat.completion"),
          ("created", .null), ("model", .str "openai/gpt-oss-120b-maas"),
          ("choices", .arr []), ("usage", .obj [])])
    ∧ (200 : Nat) ≠ 502 := by
  refine ⟨rfl, by decide⟩

/-- C7 (amended): an absent, null or empty `predictions` field never crashes
the handler and is not surfaced as 502: the handler returns a 200
ChatCompletion whose `choices` is the empty list (the only 502 in this
handler comes from transport-level `httpx.RequestError`). -/
theorem empty_predictions_yields_200 (e : Env) (reqBody vfs : List (String × JVal)) (up : UpResp)
    (cfg : String × List (String × String))
    (hcfg : _get_upstream_config e = .ok cfg)
    (hp : rstripSlash e.predictUrl ≠ "")
    (hst : up.status < 400)
    (hjson : up.jsonBody = some (.obj vfs))
    (hpred : jget vfs "predictions" = none ∨ jget vfs "predictions" = some JVal.null
             ∨ jget vfs "predictions" = some (.arr [])) :
    chat_completions e reqBody up
      = .jsonRes 200 (mkOpenAICompletion
          ⟨.arr [], .null, .null, jgetD (injectModel reqBody (defaultModelOf e)) "model",
           .obj []⟩)
    ∧ jvField (mkOpenAICompletion
          ⟨.arr [], .null, .null, jgetD (injectModel reqBody (defaultModelOf e)) "model",
           .obj []⟩) "choices" = some (.arr []) := by
  have hnot : ¬ (400 ≤ up.status) := by omega
  have hext : extractPredFields (.obj vfs) (jgetD (injectModel reqBody (defaultModelOf e)) "model")
      = .ok ⟨.arr [], .null, .null,
          jgetD (injectModel reqBody (defaultModelOf e)) "model", .obj []⟩ := by
    rcases hpred with h | h | h <;>
      simp only [extractPredFields, jvGet, jgetD, h, pyOr, truthy, Bind.bind, Except.bind,
        Option.getD] <;> rfl
  constructor
  · unfold chat_completions
    rw [hcfg]
    simp only [hp, bne_iff_ne, ne_eq, not_false_eq_true, if_true, hnot, if_false, hjson]
    simp [hnot, hext, truthy]
  · rfl

/-- Concrete instance of C7 (amended): empty predictions under a streaming
request give a 200 JSON response with empty choices. -/
theorem empty_predictions_yields_200_witness :
    chat_completions envChatEx reqStreamEx ⟨200, "ok", some (.obj [("predictions", JVal.null)]), none⟩
      = .jsonRes 200 (mkOpenAICompletion
          ⟨.arr [], .null, .null, .str "openai/gpt-oss-120b-maas", .obj []⟩) :=
  (empty_predictions_yields_200 envChatEx reqStreamEx [("predictions", JVal.null)]
      ⟨200, "ok", some (.obj [("predictions", JVal.null)]), none⟩
      ("https://p.example/pred", [("Content-Type", "application/json")])
      rfl (by decide) (by decide) rfl (Or.inr (Or.inl rfl))).1

/-! ### Auth-dispatch claims -/

/-- C8 (counterexample): an unknown auth-mode name fails on
`/v1/chat/completions` — but `/vertex/predict` accepts it silently and
proceeds with no `Authorization` header, so the mode check does not fail on
every endpoint that resolves upstream authentication. -/
theorem auth_dispatch_counterexample :
    authHeaders ⟨"https://p.example/pred", "", "", some "weird", "", "", none⟩
      = .error "UPSTREAM_AUTH inválido: weird"
    ∧ vertexPredictResolve ⟨"https://p.example/pred", "", "", some "weird", "", "", none⟩
      = .ok ("https://p.example/pred", [("Content-Type", "application/json")]) :=
  ⟨rfl, rfl⟩

/-- C8 (amended): on `/v1/chat/completions` an unknown auth-mode name fails
with ConfigError, bearer with an empty key fails, bearer with a non-empty
key emits `Authorization: Bearer <key>`, mode none emits no Authorization,
and every successful header set carries `Content-Type: application/json`;
on `/vertex/predict`, however, an unknown mode name is accepted and simply
emits no `Authorization` header. -/
theorem auth_dispatch_amended (e : Env) :
    (authModeOf e "bearer" ≠ "bearer" → authModeOf e "bearer" ≠ "gcloud" →
      authModeOf e "bearer" ≠ "none" →
      authHeaders e = .error ("UPSTREAM_AUTH inválido: " ++ authModeOf e "bearer"))
    ∧ (authModeOf e "bearer" = "bearer" → e.apiKey = "" →
      authHeaders e = .error "UPSTREAM_API_KEY é obrigatório para UPSTREAM_AUTH=bearer")
    ∧ (authModeOf e "bearer" = "bearer" → e.apiKey ≠ "" →
      authHeaders e = .ok [("Content-Type", "application/json"),
                           ("Authorization", "Bearer " ++ e.apiKey)])
    ∧ (authModeOf e "bearer" = "none" →
      authHeaders e = .ok [("Content-Type", "application/json")])
    ∧ (∀ hs, authHeaders e = .ok hs → ("Content-Type", "application/json") ∈ hs)
    ∧ (rstripSlash e.predictUrl ≠ "" →
        containsSub "localhost" (rstripSlash e.predictUrl) = false →
        containsSub "127.0.0.1" (rstripSlash e.predictUrl) = false →
        authModeOf e "gcloud" ≠ "gcloud" → authModeOf e "gcloud" ≠ "bearer" →
        vertexPredictResolve e
          = .ok (rstripSlash e.predictUrl, [("Content-Type", "application/json")])) := by
  refine ⟨?_, ?_, ?_, ?_, ?_, ?_⟩
  · intro h1 h2 h3
    simp [authHeaders, h1, h2, h3]
  · intro h1 h2
    simp [authHeaders, h1, h2]
  · intro h1 h2
    simp [authHeaders, h1, h2]
  · intro h1
    simp [authHeaders, h1]
  · intro hs hok
    unfold authHeaders at hok
    by_cases hb : (authModeOf e "bearer" == "bearer") = true
    · simp only [hb, if_true] at hok
      by_cases hk : (e.apiKey == "") = true
      · simp [hk] at hok
      · simp only [hk, Bool.false_eq_true, if_false] at hok
        injection hok with h
        subst h
        simp
    · simp only [hb, Bool.false_eq_true, if_false] at hok
      by_cases hg : (authModeOf e "bearer" == "gcloud") = true
      · simp only [hg, if_true] at hok
        by_cases ht : (e.gcloudToken == "") = true
        · simp [ht] at hok
        · simp only [ht, Bool.false_eq_true, if_false] at hok
          injection hok with h
          subst h
          simp
      · simp only [hg, Bool.false_eq_true, if_false] at hok
        by_cases hn : (authModeOf e "bearer" == "none") = true
        · simp only [hn, if_true] at hok
          injection hok with h
          subst h
          simp
        · simp [hn] at hok
  · intro h1 h2 h3 h4 h5
    simp [vertexPredictResolve, h1, h2, h3, h4, h5]

/-- Concrete instances of C8 (amended): bearer with key "k" carries the
Authorization header; mode "weird" errors on the chat endpoint but passes
with only Content-Type on `/vertex/predict`. -/
theorem auth_dispatch_amended_witness :
    authHeaders ⟨"https://p.example/pred", "", "", none, "k", "", none⟩
      = .ok [("Content-Type", "application/json"), ("Authorization", "Bearer k")]
    ∧ authHeaders ⟨"https://c.example", "", "", some "weird", "", "", none⟩
      = .error "UPSTREAM_AUTH inválido: weird"
    ∧ vertexPredictResolve ⟨"https://p.example/pred2", "", "", some "weird", "", "", none⟩
      = .ok ("https://p.example/pred2", [("Content-Type", "application/json")]) := by
  refine ⟨?_, ?_, ?_⟩
  · exact (auth_dispatch_amended ⟨"https://p.example/pred", "", "", none, "k", "", none⟩).2.2.1
      rfl (by decide)
  · exact (auth_dispatch_amended ⟨"https://c.example", "", "", some "weird", "", "", none⟩).1
      (by decide) (by decide) (by decide)
  · exact (auth_dispatch_amended
        ⟨"https://p.example/pred2", "", "", some "weird", "", "", none⟩).2.2.2.2.2
      (by decide) (by decide) (by decide) (by decide) (by decide)

/-! ### Dict-update lemmas -/

theorem jget_map_update (k kq : String) (v : JVal) (hk : kq ≠ k) :
    ∀ fs : List (String × JVal),
      jget (fs.map (fun p => if p.1 == k then (p.1, v) else p)) kq = jget fs kq := by
  intro fs
  induction fs with
  | nil => rfl
  | cons p ps ih =>
    by_cases hpk : (p.1 == k) = true
    · have hp1 : p.1 = k := by simpa using hpk
      have hpk2 : (p.1 == kq) = false := by
        rw [hp1]
        exact beq_eq_false_iff_ne.mpr (fun h => hk h.symm)
      simp only [List.map_cons, jget, List.find?, hpk, if_true, hpk2]
      simpa [jget] using ih
    · simp only [List.map_cons, jget, List.find?, hpk, if_false, Bool.false_eq_true]
      by_cases hpq : (p.1 == kq) = true
      · simp [hpq]
      · simp only [hpq, Bool.false_eq_true, if_false]
        simpa [jget] using ih

theorem jget_append_single (k kq : String) (v : JVal) (hk : kq ≠ k) :
    ∀ fs : List (String × JVal), jget (fs ++ [(k, v)]) kq = jget fs kq := by
  intro fs
  induction fs with
  | nil =>
    have hkk : (k == kq) = false := beq_eq_false_iff_ne.mpr (fun h => hk h.symm)
    simp [jget, List.find?, hkk]
  | cons p ps ih =>
    by_cases hpq : (p.1 == kq) = true
    · simp [jget, List.find?, hpq]
    · simp only [List.cons_append, jget, List.find?, hpq, Bool.false_eq_true, if_false]
      simpa [jget] using ih

theorem jget_map_update_same (k : String) (v : JVal) :
    ∀ fs : List (String × JVal),
      (fs.find? (fun p => p.1 == k)).isSome = true →
      jget (fs.map (fun p => if p.1 == k then (p.1, v) else p)) k = some v := by
  intro fs
  induction fs with
  | nil => intro h; simp [List.find?] at h
  | cons p ps ih =>
    intro h
    by_cases hpk : (p.1 == k) = true
    · simp [jget, List.find?, hpk]
    · simp only [List.find?, hpk, Bool.false_eq_true, if_false] at h
      simp only [List.map_cons, jget, List.find?, hpk, if_false, Bool.false_eq_true]
      simpa [jget] using ih h

theorem jget_append_single_same (k : String) (v : JVal) :
    ∀ fs : List (String × JVal),
      fs.find? (fun p => p.1 == k) = none →
      jget (fs ++ [(k, v)]) k = some v := by
  intro fs
  induction fs with
  | nil => intro _; simp [jget, List.find?]
  | cons p ps ih =>
    intro h
    by_cases hpk : (p.1 == k) = true
    · simp [List.find?, hpk] at h
    · simp only [List.find?, hpk, Bool.false_eq_true, if_false] at h
      simp only [List.cons_append, jget, List.find?, hpk, Bool.false_eq_true, if_false]
      simpa [jget] using ih h

theorem jget_jset_same (k : String) (v : JVal) (fs : List (String × JVal)) :
    jget (jset fs k v) k = some v := by
  unfold jset
  by_cases h : (fs.find? (fun p => p.1 == k)).isSome = true
  · simp only [h, if_true]
    exact jget_map_update_same k v fs h
  · simp only [h, Bool.false_eq_true, if_false]
    exact jget_append_single_same k v fs (Option.not_isSome_iff_eq_none.mp (by simpa using h))

theorem jget_jset_other (k kq : String) (v : JVal) (hk : kq ≠ k)
    (fs : List (String × JVal)) :
    jget (jset fs k v) kq = jget fs kq := by
  unfold jset
  by_cases h : (fs.find? (fun p => p.1 == k)).isSome = true
  · simp only [h, if_true]
    exact jget_map_update k kq v hk fs
  · simp only [h, Bool.false_eq_true, if_false]
    exact jget_append_single k kq v hk fs

/-! ### Request passthrough claims -/

/-- C9 (counterexample): a request whose `model` field is present but empty
still gets the default injected — Python truthiness, not absence, guards the
injection — so the outbound body is not verbatim-except-absent-model. -/
theorem model_injection_counterexample :
    jget [("model", JVal.str ""), ("messages", JVal.arr [])] "model" = some (.str "")
    ∧ injectModel [("model", JVal.str ""), ("messages", JVal.arr [])] "demo-model"
        = [("model", .str "demo-model"), ("messages", .arr [])]
    ∧ JVal.str "demo-model" ≠ .str "" := by
  refine ⟨rfl, rfl, by simp⟩

/-- C9 (amended): toward a chat-completions-style target the outbound body
is the request verbatim whenever `model` is present with a truthy value;
when `model` is absent — or present but falsy (null or empty string) — the
configured default is injected and every other field is unchanged. -/
theorem model_injection_amended (e : Env) (reqBody : List (String × JVal))
    (hchat : rstripSlash e.predictUrl = "") :
    (∀ v, jget reqBody "model" = some v → truthy v = true →
      outboundBody e reqBody = .obj reqBody)
    ∧ (jget reqBody "model" = none ∨ (∃ v, jget reqBody "model" = some v ∧ truthy v = false) →
      outboundBody e reqBody = .obj (jset reqBody "model" (.str (defaultModelOf e)))
      ∧ jget (jset reqBody "model" (.str (defaultModelOf e))) "model"
          = some (.str (defaultModelOf e))
      ∧ (∀ k, k ≠ "model" →
          jget (jset reqBody "model" (.str (defaultModelOf e))) k = jget reqBody k)) := by
  constructor
  · intro v hv hvt
    have h1 : jgetD reqBody "model" = v := by simp [jgetD, hv]
    simp [outboundBody, hchat, injectModel, h1, hvt]
  · intro hcase
    have h1 : truthy (jgetD reqBody "model") = false := by
      rcases hcase with h | ⟨v, hv, hvf⟩
      · simp [jgetD, h, truthy]
      · simp [jgetD, hv, hvf]
    refine ⟨?_, jget_jset_same _ _ _, fun k hk => jget_jset_other _ k _ hk _⟩
    simp [outboundBody, hchat, injectModel, h1]

/-- Concrete instance of C9 (amended), the spec §8 scenario: a request with
only `messages` and default model `demo-model` produces an outbound body
whose `model` is `demo-model` with `messages` unchanged. -/
theorem model_injection_amended_witness :
    outboundBody ⟨"", "https://c.example", "", some "none", "", "", some "demo-model"⟩
        [("messages", .arr [.obj [("role", .str "user"), ("content", .str "hi")]])]
      = .obj [("messages", .arr [.obj [("role", .str "user"), ("content", .str "hi")]]),
              ("model", .str "demo-model")]
    ∧ jget (jset [("messages", JVal.arr [.obj [("role", .str "user"), ("content", .str "hi")]])]
          "model" (.str "demo-model")) "messages"
      = some (.arr [.obj [("role", .str "user"), ("content", .str "hi")]]) := by
  have h := (model_injection_amended
      ⟨"", "https://c.example", "", some "none", "", "", some "demo-model"⟩
      [("messages", .arr [.obj [("role", .str "user"), ("content", .str "hi")]])]
      rfl).2 (Or.inl rfl)
  exact ⟨h.1, (h.2.2 "messages" (by decide)).trans rfl⟩

/-- C10: when a prediction-style streamed request translates to an empty
`choices` list, no SSE stream is started — the handler returns the plain
200 ChatCompletion JSON (with empty choices), so no role chunk, terminal
chunk or `[DONE]` frame is emitted. -/
theorem stream_empty_choices_no_sse (e : Env) (reqBody vfs : List (String × JVal)) (up : UpResp)
    (cfg : String × List (String × String)) (f : PredFields)
    (hcfg : _get_upstream_config e = .ok cfg)
    (hp : rstripSlash e.predictUrl ≠ "")
    (hst : up.status < 400)
    (hjson : up.jsonBody = some (.obj vfs))
    (hstream : jget reqBody "stream" = some (.bool true))
    (hext : extractPredFields (.obj vfs) (jgetD (injectModel reqBody (defaultModelOf e)) "model")
        = .ok f)
    (hch : f.choices = .arr []) :
    chat_completions e reqBody up = .jsonRes 200 (mkOpenAICompletion f)
    ∧ (∀ frames, chat_completions e reqBody up ≠ .sseRes frames)
    ∧ jvField (mkOpenAICompletion f) "choices" = some (.arr []) := by
  have hnot : ¬ (400 ≤ up.status) := by omega
  have hmain : chat_completions e reqBody up = .jsonRes 200 (mkOpenAICompletion f) := by
    unfold chat_completions
    rw [hcfg]
    simp only [hp, bne_iff_ne, ne_eq, not_false_eq_true, if_true, hnot, if_false, hjson]
    simp [hnot, hext, hch, truthy]
  refine ⟨hmain, ?_, ?_⟩
  · intro frames
    rw [hmain]
    simp
  · have hsame : jvField (mkOpenAICompletion f) "choices" = some f.choices := rfl
    rw [hch] at hsame
    exact hsame

/-- Concrete instance of C10: a streamed request whose prediction response
has an empty `choices` list gets the plain JSON completion, not a stream. -/
theorem stream_empty_choices_no_sse_witness :
    chat_completions envChatEx reqStreamEx
        ⟨200, "", some (.obj [("predictions", .obj [("choices", .arr [])])]), none⟩
      = .jsonRes 200 (mkOpenAICompletion
          ⟨.arr [], .null, .null, .str "openai/gpt-oss-120b-maas", .obj []⟩) :=
  (stream_empty_choices_no_sse envChatEx reqStreamEx
      [("predictions", .obj [("choices", .arr [])])]
      ⟨200, "", some (.obj [("predictions", .obj [("choices", .arr [])])]), none⟩
      ("https://p.example/pred", [("Content-Type", "application/json")])
      ⟨.arr [], .null, .null, .str "openai/gpt-oss-120b-maas", .obj []⟩
      rfl (by decide) (by decide) rfl rfl rfl rfl).1
